import Mathlib

/-!
Verification of the handwriting-OCR plugin (stroke capture, JIIX serialization,
MyScript recognition facade, canvas rasterization).

The definitions below are a shallow embedding of the TypeScript sources
src/myScriptService.ts and src/handwritingView.ts.  JavaScript numbers are
modelled as rationals (all arithmetic exercised here is exact), JSON values as
an inductive type, thrown exceptions as Except, and the HTTP transport as an
explicit outcome parameter.
-/

/-- Model of a JSON value as produced by response.json in the service code. -/
inductive Json where
  | null : Json
  | bool (b : Bool) : Json
  | num (q : Rat) : Json
  | str (s : String) : Json
  | arr (xs : List Json) : Json
  | obj (fields : List (String × Json)) : Json

/-- JavaScript truthiness for the JSON values above (null, false, 0 and the
empty string are falsy; objects and arrays are always truthy). -/
def jsonTruthy : Json → Bool
  | Json.null => false
  | Json.bool b => b
  | Json.num q => decide (q ≠ 0)
  | Json.str s => !s.isEmpty
  | Json.arr _ => true
  | Json.obj _ => true

/-- Result of the JavaScript test (typeof v === "object"): true for objects,
arrays and null, false for the primitive values. -/
def typeofIsObject : Json → Bool
  | Json.obj _ => true
  | Json.arr _ => true
  | Json.null => true
  | _ => false

/-- Property access v.k on a JSON value: a lookup for objects, undefined
(none) for every other shape.  The embedded object literals never repeat a
key, so first-match lookup is adequate. -/
def jsField (j : Json) (k : String) : Option Json :=
  match j with
  | Json.obj fields => (fields.find? (fun kv => kv.fst == k)).map Prod.snd
  | _ => none

/-- Optional chaining o?.k: undefined and null short-circuit to undefined,
otherwise an ordinary property access. -/
def jsOptChain (o : Option Json) (k : String) : Option Json :=
  match o with
  | none => none
  | some Json.null => none
  | some j => jsField j k

/-- JavaScript string coercion as applied by Array.prototype.join.  The
recognition replies treated by the claims carry string labels, so only the
string case is exercised; the remaining cases are a coarse approximation of
the JS ToString conversion. -/
def jsStringOf : Json → String
  | Json.str s => s
  | Json.num q => toString q
  | Json.bool b => if b then "true" else "false"
  | Json.null => "null"
  | Json.arr _ => ""
  | Json.obj _ => "[object Object]"

/-- The callback (line) => line.label || used by the textLines and words
branches of recognizeStrokes: reading .label on null throws a TypeError, a
falsy or absent label yields the empty string, a truthy label is coerced to a
string by join. -/
def lineLabel (line : Json) : Except String String :=
  match line with
  | Json.null => Except.error "TypeError: cannot read properties of null"
  | _ =>
      Except.ok
        (if jsonTruthy ((jsField line "label").getD Json.null) then
          jsStringOf ((jsField line "label").getD Json.null)
        else "")

/-- Response normalization of a 200-status reply, from the parse section of
MyScriptService.recognizeStrokes (src/myScriptService.ts lines 209-240): an
object-typed truthy reply is probed for, in order, a truthy top-level label,
a truthy text.label, a truthy result.textLines (joined with newlines; a
truthy non-array value would make the .map call throw), and a non-empty
words array (joined with spaces); otherwise the empty string is returned
without throwing. -/
def parseJiixResponse (result : Json) : Except String Json :=
  if jsonTruthy result && typeofIsObject result then
    if jsonTruthy ((jsField result "label").getD Json.null) then
      Except.ok ((jsField result "label").getD Json.null)
    else if jsonTruthy ((jsOptChain (jsField result "text") "label").getD Json.null) then
      Except.ok ((jsOptChain (jsField result "text") "label").getD Json.null)
    else if jsonTruthy ((jsOptChain (jsField result "result") "textLines").getD Json.null) then
      match (jsOptChain (jsField result "result") "textLines").getD Json.null with
      | Json.arr lines =>
          (lines.mapM lineLabel).map (fun ls => Json.str (String.intercalate "\n" ls))
      | _ => Except.error "TypeError: map is not a function"
    else
      match (jsField result "words").getD Json.null with
      | Json.arr ws =>
          if 0 < ws.length then
            (ws.mapM lineLabel).map (fun ls => Json.str (String.intercalate " " ls))
          else Except.ok (Json.str "")
      | _ => Except.ok (Json.str "")
  else Except.ok (Json.str "")

/-- Captured stroke point (src/myScriptService.ts StrokePoint): coordinates,
elapsed milliseconds since the start of the stroke, and optional pressure. -/
structure StrokePoint where
  x : Rat
  y : Rat
  t : Rat
  p : Option Rat
deriving DecidableEq

/-- Captured stroke: a list of points (src/myScriptService.ts Stroke). -/
structure Stroke where
  points : List StrokePoint
deriving DecidableEq

/-- JavaScript Math.round: round half toward positive infinity, that is the
floor of the argument plus one half. -/
def jsRound (q : Rat) : Int :=
  ⌊q + 1 / 2⌋

/-- JavaScript Array.prototype.map with the index argument of the callback,
carrying the running index explicitly. -/
def jsMapIdx {α β : Type} (f : α → Nat → β) : List α → Nat → List β
  | [], _ => []
  | a :: as, i => f a i :: jsMapIdx f as (i + 1)

/-- One serialized stroke record of the JIIX request body
(src/myScriptService.ts strokesToJIIX, lines 84-94). -/
structure JiixStroke where
  id : String
  pointerType : String
  pointerId : Nat
  x : List Int
  y : List Int
  t : List Rat
  p : Option (List Rat)
deriving DecidableEq

/-- Text export facet flags of the JIIX configuration block. -/
structure JiixExportText where
  chars : Bool
  words : Bool
deriving DecidableEq

/-- JIIX export facet flags (the export.jiix object of the request body);
the boundingBox field models the bounding-box key. -/
structure JiixExportFacets where
  boundingBox : Bool
  strokes : Bool
  text : JiixExportText
deriving DecidableEq

/-- Configuration block of the JIIX request body; exportJiix models the
export.jiix object (export is a reserved word in Lean). -/
structure JiixConfiguration where
  lang : String
  exportJiix : JiixExportFacets
deriving DecidableEq

/-- One stroke group of the JIIX request body. -/
structure StrokeGroup where
  strokes : List JiixStroke
deriving DecidableEq

/-- Full JIIX request document (the return value of strokesToJIIX). -/
structure JiixDocument where
  configuration : JiixConfiguration
  contentType : String
  strokeGroups : List StrokeGroup
deriving DecidableEq

/-- Serialization of one captured stroke, from the map callback of
strokesToJIIX: coordinates are rounded with Math.round, timestamps are
copied raw, and the pressure array is present exactly when the first point
has a defined pressure (the spread of the conjunction with the p object),
with 0.5 substituted for points lacking pressure. -/
def mkJiixStroke (stroke : Stroke) (strokeIndex : Nat) : JiixStroke where
  id := "stroke-" ++ toString strokeIndex
  pointerType := "PEN"
  pointerId := 1
  x := stroke.points.map (fun pt => jsRound pt.x)
  y := stroke.points.map (fun pt => jsRound pt.y)
  t := stroke.points.map (fun pt => pt.t)
  p :=
    if (stroke.points.head?.bind StrokePoint.p).isSome then
      some (stroke.points.map (fun pt => pt.p.getD (1 / 2)))
    else none

/-- MyScriptService.strokesToJIIX (src/myScriptService.ts lines 83-114):
wraps the serialized strokes in the batch-format document with the
configuration block. -/
def strokesToJIIX (strokes : List Stroke) (language : String) : JiixDocument where
  configuration :=
    { lang := language
      exportJiix :=
        { boundingBox := false
          strokes := true
          text := { chars := true, words := true } } }
  contentType := "Text"
  strokeGroups := [{ strokes := jsMapIdx mkJiixStroke strokes 0 }]

/-- Convenience accessor: the list of serialized stroke records of the single
stroke group produced by strokesToJIIX. -/
def jiixRecords (strokes : List Stroke) (language : String) : List JiixStroke :=
  (((strokesToJIIX strokes language).strokeGroups).head?.map StrokeGroup.strokes).getD []

/-- Configuration record of the cloud service (src/myScriptService.ts
MyScriptOptions): application key and optional language. -/
structure MyScriptOptions where
  applicationKey : String
  language : Option String
deriving DecidableEq

/-- MyScriptService.isConfigured (src/myScriptService.ts lines 42-45): the
double-negation of the optionally chained application key, so true exactly
when options are set and the key is a non-empty string. -/
def isConfigured (opts : Option MyScriptOptions) : Bool :=
  match opts with
  | none => false
  | some o => !o.applicationKey.isEmpty

/-- Outcome of one requestUrl call: either the transport threw (which
requestUrl does for non-2xx replies, carrying status and body text and a
message), or a reply object with a status, parsed json and body text was
returned. -/
inductive HttpOutcome where
  | threw (status : Nat) (text : String) (message : String)
  | replied (status : Nat) (json : Json) (text : String)

/-- Errors thrown by the recognition code paths, one constructor per throw
site: the configuration errors of the service, the wrapped stroke-path
request failure, the raw bitmap-path transport error, the non-200 API error,
the runtime error of the response parser, and the configuration error thrown
by the view when the cloud engine is selected without credentials. -/
inductive OcrError where
  | notConfigured
  | keyUnavailable
  | requestFailed (status : Nat) (text : String)
  | requestThrew (status : Nat) (text : String) (message : String)
  | apiError (status : Nat) (text : String)
  | parseError (msg : String)
  | viewNotConfigured
deriving DecidableEq

/-- MyScriptService.recognizeStrokes (src/myScriptService.ts lines 121-254),
with the HTTP transport passed in as an oracle from the request body to its
outcome.  The second component counts the network requests made.  Control
flow follows the source: the configured check throws first, then the
application-key guard, then the empty-stroke short-circuit returns the empty
string with no request; otherwise the JIIX body is built and sent once, a
transport throw is wrapped (body text preferred over the message when
non-empty), a non-200 reply throws an API error, and a 200 reply is
normalized by parseJiixResponse; the outer catch of the source logs and
rethrows, leaving the thrown error unchanged. -/
def recognizeStrokes (opts : Option MyScriptOptions) (net : JiixDocument → HttpOutcome)
    (strokes : List Stroke) : Except OcrError Json × Nat :=
  if !(isConfigured opts) then (Except.error OcrError.notConfigured, 0)
  else if ((opts.map MyScriptOptions.applicationKey).getD "") = "" then
    (Except.error OcrError.keyUnavailable, 0)
  else if strokes.length = 0 then (Except.ok (Json.str ""), 0)
  else
    let lang0 := (opts.bind MyScriptOptions.language).getD ""
    let language := if lang0 = "" then "en_US" else lang0
    match net (strokesToJIIX strokes language) with
    | HttpOutcome.threw status text message =>
        (Except.error (OcrError.requestFailed status (if text = "" then message else text)), 1)
    | HttpOutcome.replied status json text =>
        if status ≠ 200 then (Except.error (OcrError.apiError status text), 1)
        else
          match parseJiixResponse json with
          | Except.ok v => (Except.ok v, 1)
          | Except.error msg => (Except.error (OcrError.parseError msg), 1)

/-- MyScriptService.recognizeBitmap (src/myScriptService.ts lines 260-343),
with the transport outcome passed in as an oracle (the base64 decoding of
the request body does not affect the control flow modelled here).  There is
no inner try around requestUrl, so a transport throw propagates raw; a
non-200 reply throws an API error; a 200 reply yields text.label when
truthy on an object-typed result, else the empty string. -/
def recognizeBitmap (opts : Option MyScriptOptions) (net : HttpOutcome) :
    Except OcrError Json :=
  if !(isConfigured opts) then Except.error OcrError.notConfigured
  else if ((opts.map MyScriptOptions.applicationKey).getD "") = "" then
    Except.error OcrError.keyUnavailable
  else
    match net with
    | HttpOutcome.threw status text message =>
        Except.error (OcrError.requestThrew status text message)
    | HttpOutcome.replied status json text =>
        if status ≠ 200 then Except.error (OcrError.apiError status text)
        else
          if jsonTruthy json && typeofIsObject json then
            if jsonTruthy ((jsOptChain (jsField json "text") "label").getD Json.null) then
              Except.ok ((jsOptChain (jsField json "text") "label").getD Json.null)
            else Except.ok (Json.str "")
          else Except.ok (Json.str "")

/-- Plugin settings (src/settings.ts OOCRSettings), with the engine modelled
as a string that is either tesseract or myscript. -/
structure OOCRSettings where
  ocrEngine : String
  tesseractLanguage : String
  tesseractHandwritingMode : Bool
  myScriptApplicationKey : String
  myScriptHmacKey : String
  myScriptLanguage : String
  captureStrokes : Bool
  fallbackToBitmap : Bool
deriving DecidableEq

/-- One RGBA pixel of an ImageData buffer; the flat byte array of the source
is modelled as a list of these four-channel records. -/
structure RGBA where
  r : Nat
  g : Nat
  b : Nat
  a : Nat
deriving DecidableEq

/-- Binarization threshold of getPaddedImage (src/handwritingView.ts line
325). -/
def threshold : Rat := 180

/-- Brightness of a pixel: the average of the three color channels, as the
source computes it with exact division by 3 (the float computation of the
source agrees with the exact rational on integer channel sums, since the
rounding error is far below the distance of any sum divided by three from
the threshold). -/
def brightness (px : RGBA) : Rat :=
  ((px.r : Rat) + (px.g : Rat) + (px.b : Rat)) / 3

/-- Body of the binarization loop of getPaddedImage (src/handwritingView.ts
lines 327-333): channels are set to 255 when the brightness strictly
exceeds the threshold and to 0 otherwise; the alpha byte at offset three is
left untouched. -/
def binarizePixel (px : RGBA) : RGBA :=
  let val : Nat := if threshold < brightness px then 255 else 0
  ⟨val, val, val, px.a⟩

/-- Binarization of a whole ImageData buffer: the loop applies binarizePixel
to each four-byte group, that is to each pixel in order. -/
def binarize (data : List RGBA) : List RGBA :=
  data.map binarizePixel

/-- A canvas with its backing-store dimensions and pixel content in
row-major order. -/
structure Canvas where
  width : Nat
  height : Nat
  pixels : List RGBA
deriving DecidableEq

/-- White pixel used by the white background fills of the source. -/
def whitePx : RGBA := ⟨255, 255, 255, 255⟩

/-- Content of the padded temporary canvas right before binarization: a
buffer of the padded dimensions, white everywhere except the centered copy
of the source canvas (the fillRect followed by drawImage at offset
padding times dpr).  The device pixel ratio is modelled as a positive
integer scale. -/
def paddedBuffer (c : Canvas) (dpr : Nat) : List RGBA :=
  let off := 20 * dpr
  let w := c.width + 20 * 2 * dpr
  let h := c.height + 20 * 2 * dpr
  (List.range h).flatMap (fun row =>
    (List.range w).map (fun col =>
      if off ≤ row ∧ row < off + c.height ∧ off ≤ col ∧ col < off + c.width then
        ((c.pixels).get? ((row - off) * c.width + (col - off))).getD whitePx
      else whitePx))

/-- Error raised by the canvas API inside getPaddedImage: per the HTML
canvas standard, drawImage throws an InvalidStateError DOMException when the
source canvas bitmap has zero width or zero height. -/
inductive DomError where
  | invalidState
deriving DecidableEq

/-- Result of rasterization: either the padded, binarized buffer encoded as
a PNG data URL, or the raw unpadded surface content returned by the
toDataURL fallback of the source. -/
inductive RasterOut where
  | padded (buffer : List RGBA) (width height : Nat)
  | raw (c : Canvas)
deriving DecidableEq

/-- HandwritingView.getPaddedImage (src/handwritingView.ts lines 301-337).
The temporary canvas is created at the padded dimensions; if its 2d context
cannot be acquired the method returns the raw unpadded surface content
(modelled by the tempCtxAvailable flag); otherwise the surface is copied
into the padded white buffer — a step that throws per the drawImage rule
above when the surface has zero width or height, since the temporary canvas
of the copy has non-zero padded dimensions and its context exists — and the
buffer is binarized and encoded. -/
def getPaddedImage (tempCtxAvailable : Bool) (dpr : Nat) (c : Canvas) :
    Except DomError RasterOut :=
  if tempCtxAvailable = false then Except.ok (RasterOut.raw c)
  else if c.width = 0 ∨ c.height = 0 then Except.error DomError.invalidState
  else
    Except.ok (RasterOut.padded (binarize (paddedBuffer c dpr))
      (c.width + 20 * 2 * dpr) (c.height + 20 * 2 * dpr))

/-- Mutable state of the handwriting view relevant to stroke capture
(src/handwritingView.ts lines 22-28): sealed strokes, the in-progress
stroke, the pressure-sample accumulator and the stroke log, plus the canvas
pixel content. -/
structure ViewState where
  capturedStrokes : List Stroke
  currentStroke : Option Stroke
  pressureValues : List Rat
  strokeLogs : List String
  canvasPixels : List RGBA
deriving DecidableEq

/-- HandwritingView.clearCanvas (src/handwritingView.ts lines 279-292):
repaint the canvas white, empty the captured strokes and drop the
in-progress stroke.  The method touches no other field. -/
def clearCanvas (st : ViewState) : ViewState :=
  { st with
    canvasPixels := st.canvasPixels.map (fun _ => whitePx)
    capturedStrokes := []
    currentStroke := none }

/-- Environment of one runOcr call (src/handwritingView.ts runOcr): the
plugin settings, the cloud-service configuration, the strokes captured so
far, the transport outcomes of the stroke-path and bitmap-path requests,
and the outcome of the local engine. -/
structure OcrEnv where
  settings : OOCRSettings
  opts : Option MyScriptOptions
  capturedStrokes : List Stroke
  netStroke : JiixDocument → HttpOutcome
  netBitmap : HttpOutcome
  tesseract : Except OcrError Json

/-- Recognition phase of HandwritingView.runOcr (src/handwritingView.ts
lines 353-389), the computation of the text variable; the clipboard and
notice epilogue of the method is outside the recognition pipeline.  With the
cloud engine selected and stroke capture enabled: non-empty strokes on a
configured service go to the stroke path, whose thrown error is caught —
when fallback is enabled the bitmap path of the same engine is retried,
otherwise the text stays the empty string and the error is discarded; zero
strokes (or a stroke-capture flag without strokes) on a configured service
go directly to the bitmap path; an unconfigured service throws.  With the
cloud engine selected but capture disabled, the bitmap path is used when
configured; in every other case the local engine runs on the rasterized
surface. -/
def runOcrText (env : OcrEnv) : Except OcrError Json :=
  if env.settings.ocrEngine = "myscript" ∧ env.settings.captureStrokes = true then
    if 0 < env.capturedStrokes.length ∧ isConfigured env.opts = true then
      match (recognizeStrokes env.opts env.netStroke env.capturedStrokes).1 with
      | Except.ok t => Except.ok t
      | Except.error _ =>
          if env.settings.fallbackToBitmap = true then
            recognizeBitmap env.opts env.netBitmap
          else Except.ok (Json.str "")
    else if isConfigured env.opts = true then recognizeBitmap env.opts env.netBitmap
    else Except.error OcrError.viewNotConfigured
  else if env.settings.ocrEngine = "myscript" ∧ isConfigured env.opts = true then
    recognizeBitmap env.opts env.netBitmap
  else env.tesseract

/-- Sample single-point stroke used by the concrete recognition scenarios. -/
def strokeSample : Stroke := ⟨[⟨1, 2, 0, some 0.5⟩]⟩

/-- Settings with the cloud engine selected, stroke capture on and bitmap
fallback off. -/
def settingsNoFallback : OOCRSettings :=
  ⟨"myscript", "eng", true, "key", "", "en_US", true, false⟩

/-- Settings with the cloud engine selected, stroke capture on and bitmap
fallback on. -/
def settingsWithFallback : OOCRSettings :=
  ⟨"myscript", "eng", true, "key", "", "en_US", true, true⟩

/-- Concrete runOcr environment for the disabled-fallback scenario: the
stroke-path request throws with status 500 and body boom, the bitmap path
would succeed. -/
def envNoFallback : OcrEnv where
  settings := settingsNoFallback
  opts := some ⟨"key", none⟩
  capturedStrokes := [strokeSample]
  netStroke := fun _ => HttpOutcome.threw 500 "boom" "failed"
  netBitmap :=
    HttpOutcome.replied 200 (Json.obj [("text", Json.obj [("label", Json.str "bitmap")])]) ""
  tesseract := Except.ok (Json.str "")

/-- Concrete runOcr environment for the enabled-fallback scenario: the
stroke-path request throws, the bitmap path succeeds with label bitmap. -/
def envWithFallback : OcrEnv where
  settings := settingsWithFallback
  opts := some ⟨"key", none⟩
  capturedStrokes := [strokeSample]
  netStroke := fun _ => HttpOutcome.threw 500 "boom" "failed"
  netBitmap :=
    HttpOutcome.replied 200 (Json.obj [("text", Json.obj [("label", Json.str "bitmap")])]) ""
  tesseract := Except.ok (Json.str "")

/-- Index lookup through the indexed map: element i of the mapped list is
the callback applied to element i of the input at the shifted index. -/
theorem jsMapIdx_getElem? {α β : Type} (f : α → Nat → β) (l : List α) (start i : Nat) :
    (jsMapIdx f l start)[i]? = (l[i]?).map (fun a => f a (start + i)) := by
  induction l generalizing start i with
  | nil => simp [jsMapIdx]
  | cons a as ih =>
    cases i with
    | zero => simp [jsMapIdx]
    | succ n =>
      have h : start + 1 + n = start + (n + 1) := by omega
      simp [jsMapIdx, ih, h]

/-- C3: on a 200-status reply, normalization tries a top-level truthy label,
then a nested text label, then a textLines array joined with newlines, then
a words array joined with spaces, the first present shape winning; in
particular the four concrete response shapes of the claim resolve to hello,
a newline b, x space y, and the empty string, the last without throwing,
and a 200 reply flows from recognizeStrokes through this normalization. -/
theorem C3_response_normalization :
    parseJiixResponse (Json.obj [("text", Json.obj [("label", Json.str "hello")])])
        = Except.ok (Json.str "hello") ∧
      parseJiixResponse (Json.obj [("result", Json.obj [("textLines",
          Json.arr [Json.obj [("label", Json.str "a")], Json.obj [("label", Json.str "b")]])])])
        = Except.ok (Json.str "a\nb") ∧
      parseJiixResponse (Json.obj [("words",
          Json.arr [Json.obj [("label", Json.str "x")], Json.obj [("label", Json.str "y")]])])
        = Except.ok (Json.str "x y") ∧
      parseJiixResponse (Json.obj [("foo", Json.num 1)]) = Except.ok (Json.str "") ∧
      (∀ j v : Json, typeofIsObject j = true → jsonTruthy j = true →
        jsField j "label" = some v → jsonTruthy v = true →
        parseJiixResponse j = Except.ok v) ∧
      (∀ j v : Json, typeofIsObject j = true → jsonTruthy j = true →
        jsonTruthy ((jsField j "label").getD Json.null) = false →
        jsOptChain (jsField j "text") "label" = some v → jsonTruthy v = true →
        parseJiixResponse j = Except.ok v) ∧
      (recognizeStrokes (some ⟨"key", none⟩)
          (fun _ =>
            HttpOutcome.replied 200 (Json.obj [("text", Json.obj [("label", Json.str "hello")])]) "")
          [⟨[⟨1, 2, 0, none⟩]⟩]).1 = Except.ok (Json.str "hello") := by
  refine ⟨rfl, rfl, rfl, rfl, ?_, ?_, rfl⟩
  · intro j v hobj htr hlab htv
    simp [parseJiixResponse, hobj, htr, hlab, htv]
  · intro j v hobj htr hlabf htext htv
    simp [parseJiixResponse, hobj, htr, hlabf, htext, htv]

/-- Witness for C3: the top-level-label extractor applied at a concrete
reply. -/
theorem C3_witness :
    parseJiixResponse (Json.obj [("label", Json.str "top")]) = Except.ok (Json.str "top") :=
  C3_response_normalization.2.2.2.2.1 (Json.obj [("label", Json.str "top")])
    (Json.str "top") rfl rfl rfl rfl

/-- C4: serialization of a stroke rounds the x and y coordinates with the
half-up rounding of Math.round and copies the timestamps raw; the concrete
claim values 10.7, 20.3, 15.2 and 25.8 round to 11, 20, 15 and 26, and a
fractional timestamp 3.5 stays 3.5 in the serialized record. -/
theorem C4_coordinate_rounding :
    (∀ (strokes : List Stroke) (lang : String) (i : Nat) (s : Stroke),
        strokes[i]? = some s →
        ∃ r, (jiixRecords strokes lang)[i]? = some r ∧
          r.x = s.points.map (fun pt => jsRound pt.x) ∧
          r.y = s.points.map (fun pt => jsRound pt.y) ∧
          r.t = s.points.map StrokePoint.t) ∧
      jsRound 10.7 = 11 ∧ jsRound 20.3 = 20 ∧ jsRound 15.2 = 15 ∧ jsRound 25.8 = 26 ∧
      (jiixRecords [⟨[⟨10.7, 20.3, 0, none⟩, ⟨15.2, 25.8, 3.5, none⟩]⟩] "en_US").map
        (fun r => (r.x, r.y, r.t)) = [([11, 15], [20, 26], [0, 3.5])] := by
  refine ⟨?_, by norm_num [jsRound], by norm_num [jsRound], by norm_num [jsRound],
    by norm_num [jsRound], ?_⟩
  · intro strokes lang i s hs
    refine ⟨mkJiixStroke s i, ?_, rfl, rfl, rfl⟩
    simp [jiixRecords, strokesToJIIX, jsMapIdx_getElem?, hs]
  · simp [jiixRecords, strokesToJIIX, jsMapIdx, mkJiixStroke]
    norm_num [jsRound]

/-- Witness for C4: the per-record statement applied at a concrete one-point
stroke list. -/
theorem C4_witness :
    ∃ r, (jiixRecords [Stroke.mk [⟨10.7, 20.3, 0, none⟩]] "en_US")[0]? = some r ∧
      r.x = (Stroke.mk [⟨10.7, 20.3, 0, none⟩]).points.map (fun pt => jsRound pt.x) ∧
      r.y = (Stroke.mk [⟨10.7, 20.3, 0, none⟩]).points.map (fun pt => jsRound pt.y) ∧
      r.t = (Stroke.mk [⟨10.7, 20.3, 0, none⟩]).points.map StrokePoint.t :=
  C4_coordinate_rounding.1 [Stroke.mk [⟨10.7, 20.3, 0, none⟩]] "en_US" 0
    (Stroke.mk [⟨10.7, 20.3, 0, none⟩]) rfl

/-- C5: the serialized stroke record carries a pressure array exactly when
the first point of the stroke has a defined pressure; when absent the array
is omitted even if later points define pressure, and when present it covers
every point with 0.5 substituted for points lacking pressure. -/
theorem C5_pressure_presence :
    (∀ (strokes : List Stroke) (lang : String) (i : Nat) (s : Stroke),
        strokes[i]? = some s →
        ∃ r, (jiixRecords strokes lang)[i]? = some r ∧
          (s.points.head?.bind StrokePoint.p = none → r.p = none) ∧
          (∀ q : Rat, s.points.head?.bind StrokePoint.p = some q →
            r.p = some (s.points.map (fun pt => pt.p.getD (1 / 2))))) ∧
      (jiixRecords [⟨[⟨1, 2, 0, none⟩, ⟨3, 4, 1, some 0.8⟩]⟩] "en_US").map JiixStroke.p
        = [none] ∧
      (jiixRecords [⟨[⟨1, 2, 0, some 0.25⟩, ⟨3, 4, 1, none⟩]⟩] "en_US").map JiixStroke.p
        = [some [0.25, 0.5]] := by
  refine ⟨?_, ?_, ?_⟩
  · intro strokes lang i s hs
    refine ⟨mkJiixStroke s i, ?_, ?_, ?_⟩
    · simp [jiixRecords, strokesToJIIX, jsMapIdx_getElem?, hs]
    · intro h
      simp [mkJiixStroke, h]
    · intro q h
      simp [mkJiixStroke, h]
  · simp [jiixRecords, strokesToJIIX, jsMapIdx, mkJiixStroke]
  · simp [jiixRecords, strokesToJIIX, jsMapIdx, mkJiixStroke]
    norm_num

/-- Witness for C5: the per-record statement applied at a stroke whose first
point lacks pressure while the second defines it. -/
theorem C5_witness :
    ∃ r, (jiixRecords [Stroke.mk [⟨1, 2, 0, none⟩, ⟨3, 4, 1, some 0.8⟩]] "en_US")[0]?
        = some r ∧
      ((Stroke.mk [⟨1, 2, 0, none⟩, ⟨3, 4, 1, some 0.8⟩]).points.head?.bind StrokePoint.p
          = none → r.p = none) ∧
      (∀ q : Rat,
        (Stroke.mk [⟨1, 2, 0, none⟩, ⟨3, 4, 1, some 0.8⟩]).points.head?.bind StrokePoint.p
            = some q →
        r.p = some ((Stroke.mk [⟨1, 2, 0, none⟩, ⟨3, 4, 1, some 0.8⟩]).points.map
          (fun pt => pt.p.getD (1 / 2)))) :=
  C5_pressure_presence.1 [Stroke.mk [⟨1, 2, 0, none⟩, ⟨3, 4, 1, some 0.8⟩]] "en_US" 0
    (Stroke.mk [⟨1, 2, 0, none⟩, ⟨3, 4, 1, some 0.8⟩]) rfl

/-- C1 counterexample: a concrete environment satisfying every condition of
the claim — cloud engine selected with stroke capture, a non-empty stroke
set, present credentials, a throwing stroke-path call and disabled fallback
— on which the recognition phase resolves to the empty text result instead
of surfacing the stroke-path error. -/
theorem C1_counterexample :
    envNoFallback.settings.ocrEngine = "myscript" ∧
      envNoFallback.settings.captureStrokes = true ∧
      0 < envNoFallback.capturedStrokes.length ∧
      isConfigured envNoFallback.opts = true ∧
      envNoFallback.settings.fallbackToBitmap = false ∧
      (recognizeStrokes envNoFallback.opts envNoFallback.netStroke
          envNoFallback.capturedStrokes).1
        = Except.error (OcrError.requestFailed 500 "boom") ∧
      runOcrText envNoFallback = Except.ok (Json.str "") ∧
      runOcrText envNoFallback ≠ Except.error (OcrError.requestFailed 500 "boom") := by
  refine ⟨rfl, rfl, by decide, rfl, rfl, rfl, rfl, ?_⟩
  intro h
  exact Except.noConfusion ((rfl : runOcrText envNoFallback = Except.ok (Json.str "")).symm.trans h)

/-- C1 (amended): when the cloud engine is selected with stroke capture, the
stroke set is non-empty, credentials are present, the stroke-path call
throws and fallback to bitmap is disabled, the recognition phase catches and
discards the stroke-path error and resolves to the empty text result; the
error is not surfaced to the caller. -/
theorem C1_fallback_disabled_swallows_error :
    ∀ (env : OcrEnv) (e : OcrError),
      env.settings.ocrEngine = "myscript" →
      env.settings.captureStrokes = true →
      0 < env.capturedStrokes.length →
      isConfigured env.opts = true →
      (recognizeStrokes env.opts env.netStroke env.capturedStrokes).1 = Except.error e →
      env.settings.fallbackToBitmap = false →
      runOcrText env = Except.ok (Json.str "") := by
  intro env e h1 h2 h3 h4 h5 h6
  simp [runOcrText, h1, h2, h3, h4, h5, h6]

/-- Witness for the amended C1 at the concrete no-fallback environment. -/
theorem C1_witness : runOcrText envNoFallback = Except.ok (Json.str "") :=
  C1_fallback_disabled_swallows_error envNoFallback (OcrError.requestFailed 500 "boom")
    rfl rfl (by decide) rfl rfl rfl

/-- C2 counterexample: on an unconfigured service a zero-stroke request does
not short-circuit to the empty text result — the configuration check comes
first and throws. -/
theorem C2_counterexample :
    (recognizeStrokes none (fun _ => HttpOutcome.replied 200 (Json.obj []) "") []).1
        = Except.error OcrError.notConfigured ∧
      (recognizeStrokes none (fun _ => HttpOutcome.replied 200 (Json.obj []) "") []).1
        ≠ Except.ok (Json.str "") := by
  refine ⟨rfl, ?_⟩
  intro h
  exact Except.noConfusion
    ((rfl : (recognizeStrokes none (fun _ => HttpOutcome.replied 200 (Json.obj []) "") []).1
        = Except.error OcrError.notConfigured).symm.trans h)

/-- C2 (amended): on a configured service, a request with zero captured
strokes short-circuits to the empty text result, raising no error and
making no network call. -/
theorem C2_empty_short_circuit :
    ∀ (opts : Option MyScriptOptions) (net : JiixDocument → HttpOutcome),
      isConfigured opts = true →
      recognizeStrokes opts net [] = (Except.ok (Json.str ""), 0) := by
  intro opts net h
  match opts with
  | none => simp [isConfigured] at h
  | some o =>
      have hkeyb : o.applicationKey.isEmpty = false := by
        simp [isConfigured] at h
        exact h
      have hne : o.applicationKey ≠ "" := by
        intro hk
        rw [hk] at hkeyb
        exact Bool.noConfusion ((show "".isEmpty = true from rfl).symm.trans hkeyb)
      simp [recognizeStrokes, isConfigured, hkeyb, hne]

/-- Witness for the amended C2 at a concrete configured service. -/
theorem C2_witness :
    recognizeStrokes (some ⟨"key", none⟩)
        (fun _ => HttpOutcome.replied 200 (Json.obj []) "") []
      = (Except.ok (Json.str ""), 0) :=
  C2_empty_short_circuit (some ⟨"key", none⟩)
    (fun _ => HttpOutcome.replied 200 (Json.obj []) "") rfl

/-- C6: when the stroke-path call throws, fallback to bitmap is enabled and
the bitmap-path call succeeds, the recognition phase resolves to the
bitmap-path result and the stroke-path error is not surfaced. -/
theorem C6_fallback_uses_bitmap_result :
    ∀ (env : OcrEnv) (e : OcrError) (b : Json),
      env.settings.ocrEngine = "myscript" →
      env.settings.captureStrokes = true →
      0 < env.capturedStrokes.length →
      isConfigured env.opts = true →
      (recognizeStrokes env.opts env.netStroke env.capturedStrokes).1 = Except.error e →
      env.settings.fallbackToBitmap = true →
      recognizeBitmap env.opts env.netBitmap = Except.ok b →
      runOcrText env = Except.ok b := by
  intro env e b h1 h2 h3 h4 h5 h6 h7
  simp [runOcrText, h1, h2, h3, h4, h5, h6, h7]

/-- Witness for C6 at the concrete fallback environment whose bitmap path
succeeds with the label bitmap. -/
theorem C6_witness : runOcrText envWithFallback = Except.ok (Json.str "bitmap") :=
  C6_fallback_uses_bitmap_result envWithFallback (OcrError.requestFailed 500 "boom")
    (Json.str "bitmap") rfl rfl (by decide) rfl rfl rfl rfl

/-- C7 counterexample: on a zero-size drawing surface with the temporary
context available, rasterization throws the drawImage InvalidStateError
instead of returning the unpadded raw surface content. -/
theorem C7_counterexample :
    getPaddedImage true 1 ⟨0, 0, []⟩ = Except.error DomError.invalidState ∧
      getPaddedImage true 1 ⟨0, 0, []⟩ ≠ Except.ok (RasterOut.raw ⟨0, 0, []⟩) := by
  refine ⟨rfl, ?_⟩
  intro h
  exact Except.noConfusion
    ((rfl : getPaddedImage true 1 ⟨0, 0, []⟩ = Except.error DomError.invalidState).symm.trans h)

/-- C7 (amended): the graceful unpadded-raw-content return of rasterization
triggers when the 2d context of the temporary canvas cannot be acquired; a
zero-width or zero-height surface is not itself guarded — with the context
available, copying the zero-size surface into the padded buffer throws. -/
theorem C7_raster_guard :
    ∀ (dpr : Nat) (c : Canvas),
      getPaddedImage false dpr c = Except.ok (RasterOut.raw c) ∧
      (c.width = 0 ∨ c.height = 0 →
        getPaddedImage true dpr c = Except.error DomError.invalidState) := by
  intro dpr c
  refine ⟨rfl, ?_⟩
  intro h
  simp [getPaddedImage, h]

/-- Witness for the amended C7: the raw fallback at a concrete surface and
the throw at a concrete zero-width surface. -/
theorem C7_witness :
    getPaddedImage false 1 ⟨2, 2, []⟩ = Except.ok (RasterOut.raw ⟨2, 2, []⟩) ∧
      getPaddedImage true 1 ⟨0, 3, []⟩ = Except.error DomError.invalidState :=
  ⟨(C7_raster_guard 1 ⟨2, 2, []⟩).1, (C7_raster_guard 1 ⟨0, 3, []⟩).2 (Or.inl rfl)⟩

/-- C8 counterexample: clearing at a state with a recorded pressure sample
leaves the pressure-sample accumulator non-empty, refuting the conjunction
claimed. -/
theorem C8_counterexample :
    ¬ ((clearCanvas ⟨[], none, [0.5], [], []⟩).capturedStrokes = [] ∧
       (clearCanvas ⟨[], none, [0.5], [], []⟩).currentStroke = none ∧
       (clearCanvas ⟨[], none, [0.5], [], []⟩).pressureValues = []) := by
  intro h
  have h3 := h.2.2
  simp [clearCanvas] at h3

/-- C8 (amended): clearing the canvas empties the captured strokes and drops
the in-progress stroke, but leaves the pressure-sample accumulator (and the
stroke log) unchanged; the accumulator is emptied at the end of each stroke
instead. -/
theorem C8_clear_resets_strokes_only :
    ∀ st : ViewState,
      (clearCanvas st).capturedStrokes = [] ∧
      (clearCanvas st).currentStroke = none ∧
      (clearCanvas st).pressureValues = st.pressureValues ∧
      (clearCanvas st).strokeLogs = st.strokeLogs :=
  fun _ => ⟨rfl, rfl, rfl, rfl⟩

/-- C9: binarization maps a pixel whose channel average strictly exceeds the
threshold 180 to pure white and every other pixel to pure black; a buffer of
pixels all above the threshold binarizes to all white, a pixel below the
threshold becomes pure black at its location, and no output pixel is ever a
gray value. -/
theorem C9_binarization :
    (∀ buffer : List RGBA, (∀ px ∈ buffer, threshold < brightness px) →
        binarize buffer = buffer.map (fun px => ⟨255, 255, 255, px.a⟩)) ∧
      (∀ (buffer : List RGBA) (i : Nat) (px : RGBA), buffer[i]? = some px →
        brightness px < threshold →
        (binarize buffer)[i]? = some ⟨0, 0, 0, px.a⟩) ∧
      (∀ px : RGBA, binarizePixel px = ⟨255, 255, 255, px.a⟩ ∨
        binarizePixel px = ⟨0, 0, 0, px.a⟩) := by
  refine ⟨?_, ?_, ?_⟩
  · intro buffer h
    unfold binarize
    apply List.map_congr_left
    intro px hpx
    simp [binarizePixel, if_pos (h px hpx)]
  · intro buffer i px hbuf hlt
    have hmap : (binarize buffer)[i]? = (buffer[i]?).map binarizePixel := by
      simp [binarize]
    rw [hmap, hbuf]
    simp [binarizePixel, if_neg (not_lt.mpr (le_of_lt hlt))]
  · intro px
    by_cases h : threshold < brightness px
    · exact Or.inl (by simp [binarizePixel, if_pos h])
    · exact Or.inr (by simp [binarizePixel, if_neg h])

/-- Witness for C9: an all-bright one-pixel buffer binarizes to all white. -/
theorem C9_witness :
    binarize [RGBA.mk 200 200 200 255]
      = [RGBA.mk 200 200 200 255].map (fun px => ⟨255, 255, 255, px.a⟩) :=
  C9_binarization.1 [RGBA.mk 200 200 200 255] (by
    intro px hpx
    simp at hpx
    subst hpx
    norm_num [brightness, threshold])

/-- C10: the credentials check of recognizeStrokes precedes the empty-input
check — an unconfigured service throws the configuration error for every
stroke list, the empty list included, with no network call; the zero-stroke
short-circuit to the empty string applies only once credentials are
configured. -/
theorem C10_credentials_before_empty :
    (∀ (opts : Option MyScriptOptions) (net : JiixDocument → HttpOutcome)
        (strokes : List Stroke), isConfigured opts = false →
        recognizeStrokes opts net strokes = (Except.error OcrError.notConfigured, 0)) ∧
      (∀ (opts : Option MyScriptOptions) (net : JiixDocument → HttpOutcome),
        isConfigured opts = true →
        (recognizeStrokes opts net []).1 = Except.ok (Json.str "")) := by
  constructor
  · intro opts net strokes h
    simp [recognizeStrokes, h]
  · intro opts net h
    match opts with
    | none => simp [isConfigured] at h
    | some o =>
        have hkeyb : o.applicationKey.isEmpty = false := by
          simp [isConfigured] at h
          exact h
        have hne : o.applicationKey ≠ "" := by
          intro hk
          rw [hk] at hkeyb
          exact Bool.noConfusion ((show "".isEmpty = true from rfl).symm.trans hkeyb)
        simp [recognizeStrokes, isConfigured, hkeyb, hne]

/-- Witness for C10: the unconfigured service throws on a non-empty stroke
list as well as on the empty one. -/
theorem C10_witness :
    recognizeStrokes none (fun _ => HttpOutcome.replied 200 (Json.obj []) "") [strokeSample]
      = (Except.error OcrError.notConfigured, 0) :=
  C10_credentials_before_empty.1 none
    (fun _ => HttpOutcome.replied 200 (Json.obj []) "") [strokeSample] rfl
